import Mathlib

/-
Verification of the Breakout simulation core (src/main.rs).

Numeric model: the game uses f32 throughout; we embed the arithmetic over ℚ
(exact rationals).  Every quantity the claims touch is produced by +, -, *, /,
abs, min and max on small constants, so the sign tests and comparisons the
program makes are exact and agree with the f32 computation on the concrete
inputs considered here.
-/

namespace Breakout

/-- A 2D vector of rationals, standing for bevy's `Vec2` of `f32` (the `x`/`y`
pair used for positions, sizes and velocities in `main.rs`). -/
structure Vec2 where
  x : ℚ
  y : ℚ
deriving DecidableEq, Repr

/- Constants from the top of src/main.rs. -/

def PADDLE_SIZE : Vec2 := ⟨120, 20⟩

def PADDLE_SPEED : ℚ := 500

def BALL_SIZE : Vec2 := ⟨30, 30⟩

def BALL_SPEED : ℚ := 400

def LEFT_WALL : ℚ := -450

def RIGHT_WALL : ℚ := 450

def BOTTOM_WALL : ℚ := -300

def TOP_WALL : ℚ := 300

def WALL_THICKNESS : ℚ := 10

def BRICK_SIZE : Vec2 := ⟨100, 30⟩

/-- The `Collision` enum of `bevy::sprite::collide_aabb`: which face of the
other box the probe box struck, or `Inside` for deep interpenetration. -/
inductive Collision where
  | Left
  | Right
  | Top
  | Bottom
  | Inside
deriving DecidableEq, Repr

/-- Modelled from the spec: `bevy::sprite::collide_aabb::collide`, the AABB
detection primitive called by `check_ball_collisions`, is engine code and not
part of this repository; this follows the spec's §4.1 contract word for word.
Boxes are given by center position and full size.  A non-positive width or
height on either box classifies as `none`.  Otherwise the overlap on each axis
is the combined half-extents minus the center distance; no collision if either
overlap is ≤ 0.  Otherwise the axis with the smaller penetration depth relative
to that axis's combined extent wins, the struck face given by the sign of the
positional delta on that axis (probe left of the other box ⇒ `Left`, probe
below ⇒ `Bottom`); ties classify as `Inside`. -/
def detect (aPos aSize bPos bSize : Vec2) : Option Collision :=
  if aSize.x ≤ 0 ∨ aSize.y ≤ 0 ∨ bSize.x ≤ 0 ∨ bSize.y ≤ 0 then none
  else if (aSize.x + bSize.x) / 2 - |aPos.x - bPos.x| ≤ 0
      ∨ (aSize.y + bSize.y) / 2 - |aPos.y - bPos.y| ≤ 0 then none
  else if ((aSize.x + bSize.x) / 2 - |aPos.x - bPos.x|) / (aSize.x + bSize.x)
      < ((aSize.y + bSize.y) / 2 - |aPos.y - bPos.y|) / (aSize.y + bSize.y) then
    some (if aPos.x - bPos.x < 0 then Collision.Left else Collision.Right)
  else if ((aSize.y + bSize.y) / 2 - |aPos.y - bPos.y|) / (aSize.y + bSize.y)
      < ((aSize.x + bSize.x) / 2 - |aPos.x - bPos.x|) / (aSize.x + bSize.x) then
    some (if aPos.y - bPos.y < 0 then Collision.Bottom else Collision.Top)
  else some Collision.Inside

/-- A ball entity: `Transform.translation` (x, y), the `Ball` component's
`size`, and the `Velocity` component. -/
structure BallEnt where
  pos : Vec2
  size : Vec2
  vel : Vec2
deriving DecidableEq, Repr

/-- A collider entity as seen by `check_ball_collisions`'s second query:
its `Entity` id, `Transform.translation`, `Collider.size`, and the optional
`Brick` component (its `health: i8`, embedded as ℤ). -/
structure ColliderEnt where
  id : Nat
  pos : Vec2
  size : Vec2
  brick : Option ℤ
deriving DecidableEq, Repr

/-- The `reflect_x` flag of the `match collision` in `check_ball_collisions`:
set only in the `Left` arm (ball moving right) or the `Right` arm (ball moving
left); every other arm leaves it `false`. -/
def reflect_x_flag (col : Collision) (v : Vec2) : Bool :=
  match col with
  | Collision.Left => decide (v.x > 0)
  | Collision.Right => decide (v.x < 0)
  | _ => false

/-- The `reflect_y` flag of the `match collision` in `check_ball_collisions`:
set only in the `Top` arm (ball moving down) or the `Bottom` arm (ball moving
up); every other arm leaves it `false`. -/
def reflect_y_flag (col : Collision) (v : Vec2) : Bool :=
  match col with
  | Collision.Top => decide (v.y < 0)
  | Collision.Bottom => decide (v.y > 0)
  | _ => false

/-- Lines 476–484 of main.rs: negate `ball_velocity.x` when `reflect_x`,
negate `ball_velocity.y` when `reflect_y` (both flags were computed from the
velocity before either negation). -/
def applyReflect (col : Collision) (v : Vec2) : Vec2 :=
  ⟨if reflect_x_flag col v then -v.x else v.x,
   if reflect_y_flag col v then -v.y else v.y⟩

/-- Result of one iteration of the inner collider loop of
`check_ball_collisions`: the (possibly reflected) ball, the (possibly damaged)
collider, the scoreboard, and the ids queued for despawn via `Commands`. -/
structure StepResult where
  ball : BallEnt
  collider : ColliderEnt
  score : Nat
  despawns : List Nat
deriving DecidableEq, Repr

/-- The body of the inner loop of `check_ball_collisions` for one
ball–collider pair: run `detect`; on a hit reflect the velocity per the flags,
and if the collider carries a `Brick`, add 1 to the score, set
`health = max (health - 1) 0`, and queue the entity for despawn when the
resulting health is ≤ 0. -/
def collideStep (b : BallEnt) (c : ColliderEnt) (score : Nat) (despawns : List Nat) :
    StepResult :=
  match detect b.pos b.size c.pos c.size with
  | none => ⟨b, c, score, despawns⟩
  | some col =>
    let b2 : BallEnt := { b with vel := applyReflect col b.vel }
    match c.brick with
    | none => ⟨b2, c, score, despawns⟩
    | some h =>
      let h2 : ℤ := max (h - 1) 0
      ⟨b2, { c with brick := some h2 }, score + 1,
        if h2 ≤ 0 then despawns ++ [c.id] else despawns⟩

/-- Result of one ball's pass over the collider list. -/
structure PassResult where
  ball : BallEnt
  colliders : List ColliderEnt
  score : Nat
  despawns : List Nat
deriving DecidableEq, Repr

/-- The inner loop of `check_ball_collisions`: one ball against every collider
in iteration order, threading the mutated velocity, brick healths, score and
despawn queue through. -/
def collideBall : BallEnt → List ColliderEnt → Nat → List Nat → PassResult
  | b, [], score, despawns => ⟨b, [], score, despawns⟩
  | b, c :: cs, score, despawns =>
    let r := collideStep b c score despawns
    let rest := collideBall r.ball cs r.score r.despawns
    ⟨rest.ball, r.collider :: rest.colliders, rest.score, rest.despawns⟩

/-- Result of the whole `check_ball_collisions` system. -/
structure SysResult where
  balls : List BallEnt
  colliders : List ColliderEnt
  score : Nat
  despawns : List Nat
deriving DecidableEq, Repr

/-- The `check_ball_collisions` system of main.rs: every ball, in order,
against every collider, mutating ball velocities, brick healths and the
scoreboard in place and queueing brick despawns. -/
def check_ball_collisions : List BallEnt → List ColliderEnt → Nat → List Nat →
    SysResult
  | [], cs, score, despawns => ⟨[], cs, score, despawns⟩
  | b :: bs, cs, score, despawns =>
    let p := collideBall b cs score despawns
    let rest := check_ball_collisions bs p.colliders p.score p.despawns
    ⟨p.ball :: rest.balls, rest.colliders, rest.score, rest.despawns⟩

/-- The `apply_velocity` system of main.rs: for every entity with a
`Transform` and a `Velocity` (the balls, in this program),
`translation += velocity * dt`.  Nothing else changes. -/
def apply_velocity (dt : ℚ) (es : List BallEnt) : List BallEnt :=
  es.map fun e => { e with pos := ⟨e.pos.x + e.vel.x * dt, e.pos.y + e.vel.y * dt⟩ }

/-- The lower clamp of the paddle's x coordinate in `move_paddle`. -/
def paddleMinX : ℚ := LEFT_WALL + (WALL_THICKNESS + PADDLE_SIZE.x) * (1 / 2)

/-- The upper clamp of the paddle's x coordinate in `move_paddle`. -/
def paddleMaxX : ℚ := RIGHT_WALL - (WALL_THICKNESS + PADDLE_SIZE.x) * (1 / 2)

/-- The `move_paddle` system of main.rs: direction is -1 for key A, +1 for
key D (both held cancel), the candidate x is
`x + direction * PADDLE_SPEED * dt`, then `.min` with the right clamp and
`.max` with the left clamp. -/
def move_paddle (pressedA pressedD : Bool) (dt : ℚ) (x : ℚ) : ℚ :=
  let direction : ℚ := (if pressedA then -1 else 0) + (if pressedD then 1 else 0)
  max (min (x + direction * PADDLE_SPEED * dt) paddleMaxX) paddleMinX

/-- `move_paddle` iterated with only the A key held (hard left). -/
def paddleLeftTicks (dt : ℚ) : Nat → ℚ → ℚ
  | 0, x => x
  | n + 1, x => paddleLeftTicks dt n (move_paddle true false dt x)

/-- C2: reflect_x is true iff the side is Left and the ball's x-velocity > 0,
or the side is Right and the x-velocity < 0; reflect_y is true iff the side is
Top and the y-velocity < 0, or the side is Bottom and the y-velocity > 0; an
`Inside` result sets neither flag, so applying the reflection leaves the
velocity unchanged. -/
theorem c2_reflection_flags (col : Collision) (v : Vec2) :
    (reflect_x_flag col v = true ↔
      (col = Collision.Left ∧ 0 < v.x) ∨ (col = Collision.Right ∧ v.x < 0)) ∧
    (reflect_y_flag col v = true ↔
      (col = Collision.Top ∧ v.y < 0) ∨ (col = Collision.Bottom ∧ 0 < v.y)) ∧
    applyReflect Collision.Inside v = v := by
  refine ⟨?_, ?_, ?_⟩
  · cases col <;> simp [reflect_x_flag]
  · cases col <;> simp [reflect_y_flag]
  · simp [applyReflect, reflect_x_flag, reflect_y_flag]

/-- C3, counterexample: there is no collision result and velocity for which
both reflect flags fire — the `match` on the detect result sets at most one of
them, refuting the claimed existence of a single collision event that negates
both velocity components. -/
theorem c3_counterexample :
    ¬ ∃ (col : Collision) (v : Vec2),
      reflect_x_flag col v = true ∧ reflect_y_flag col v = true := by
  rintro ⟨col, v, h1, h2⟩
  cases col <;> simp [reflect_x_flag, reflect_y_flag] at h1 h2

/-- C3, amended: a single collision event reflects at most one axis (the
detect result is a single side, and each side sets at most one flag); both
components can still be negated in the same tick, but only through two
separate collision events against two colliders, as the concrete two-collider
run shows. -/
theorem c3_amended :
    (∀ (col : Collision) (v : Vec2),
      reflect_x_flag col v = false ∨ reflect_y_flag col v = false) ∧
    (check_ball_collisions [⟨⟨0, 0⟩, ⟨30, 30⟩, ⟨5, -5⟩⟩]
      [⟨0, ⟨50, 0⟩, ⟨100, 30⟩, none⟩, ⟨1, ⟨0, -25⟩, ⟨30, 30⟩, none⟩] 0 []).balls
    = [⟨⟨0, 0⟩, ⟨30, 30⟩, ⟨-5, 5⟩⟩] := by
  constructor
  · intro col v
    cases col <;> simp [reflect_x_flag, reflect_y_flag]
  · norm_num [check_ball_collisions, collideBall, collideStep, detect, applyReflect,
      reflect_x_flag, reflect_y_flag, abs_of_nonneg, abs_of_nonpos]

/-- C5: whenever the center distance on some axis is at least the combined
half-extents on that axis (exact touch included), `detect` returns `none`. -/
theorem c5_no_overlap (aPos aSize bPos bSize : Vec2)
    (h : (aSize.x + bSize.x) / 2 ≤ |aPos.x - bPos.x|
      ∨ (aSize.y + bSize.y) / 2 ≤ |aPos.y - bPos.y|) :
    detect aPos aSize bPos bSize = none := by
  have hc : (aSize.x + bSize.x) / 2 - |aPos.x - bPos.x| ≤ 0
      ∨ (aSize.y + bSize.y) / 2 - |aPos.y - bPos.y| ≤ 0 :=
    h.imp sub_nonpos.mpr sub_nonpos.mpr
  unfold detect
  by_cases hg : aSize.x ≤ 0 ∨ aSize.y ≤ 0 ∨ bSize.x ≤ 0 ∨ bSize.y ≤ 0
  · rw [if_pos hg]
  · rw [if_neg hg, if_pos hc]

/-- C5, witness: the exact-touch boundary case — a ball of size 30 at x = 0
and a brick of size 100 at x = 65 have center distance 65 = (30+100)/2, and
`detect` reports no collision. -/
theorem c5_no_overlap_witness :
    (((⟨30, 30⟩ : Vec2).x + (⟨100, 30⟩ : Vec2).x) / 2
        ≤ |(⟨0, 0⟩ : Vec2).x - (⟨65, 0⟩ : Vec2).x|
      ∨ ((⟨30, 30⟩ : Vec2).y + (⟨100, 30⟩ : Vec2).y) / 2
        ≤ |(⟨0, 0⟩ : Vec2).y - (⟨65, 0⟩ : Vec2).y|) ∧
    detect ⟨0, 0⟩ ⟨30, 30⟩ ⟨65, 0⟩ ⟨100, 30⟩ = none := by
  refine ⟨Or.inl (by norm_num), c5_no_overlap _ _ _ _ (Or.inl (by norm_num))⟩

/-- C7: `apply_velocity` advances every entity carrying a position and a
velocity by exactly `velocity * dt` on each coordinate, applies no clamping
(the new position is exactly the sum), and leaves the velocity and size
unchanged. -/
theorem c7_apply_velocity (dt : ℚ) (es : List BallEnt) :
    List.Forall₂ (fun e e2 =>
      e2.pos.x = e.pos.x + e.vel.x * dt ∧ e2.pos.y = e.pos.y + e.vel.y * dt ∧
      e2.vel = e.vel ∧ e2.size = e.size) es (apply_velocity dt es) := by
  induction es with
  | nil => exact List.Forall₂.nil
  | cons e es ih => exact List.Forall₂.cons ⟨rfl, rfl, rfl, rfl⟩ ih

/-- C8: if either box has a non-positive width or height, `detect` classifies
the pair as no collision (it is a total function, so no error is raised). -/
theorem c8_degenerate_size (aPos aSize bPos bSize : Vec2)
    (h : aSize.x ≤ 0 ∨ aSize.y ≤ 0 ∨ bSize.x ≤ 0 ∨ bSize.y ≤ 0) :
    detect aPos aSize bPos bSize = none := by
  unfold detect
  rw [if_pos h]

/-- C8, witness: a zero-width box against the ball-sized box yields no
collision. -/
theorem c8_degenerate_size_witness :
    ((⟨0, 30⟩ : Vec2).x ≤ 0 ∨ (⟨0, 30⟩ : Vec2).y ≤ 0
      ∨ (⟨30, 30⟩ : Vec2).x ≤ 0 ∨ (⟨30, 30⟩ : Vec2).y ≤ 0) ∧
    detect ⟨0, 0⟩ ⟨0, 30⟩ ⟨10, 0⟩ ⟨30, 30⟩ = none := by
  refine ⟨Or.inl le_rfl, c8_degenerate_size _ _ _ _ (Or.inl le_rfl)⟩

/-- C1: a brick with health 1 that a ball collides with (any non-`none`
detect result) yields exactly one score increment for the event, its health is
decremented with a floor of 0 (hence reaches 0), and it is queued for removal;
moreover a collision step never produces a negative brick health. -/
theorem c1_brick_hit (b : BallEnt) (c : ColliderEnt) (score : Nat) (despawns : List Nat)
    (hb : c.brick = some 1) (hcol : detect b.pos b.size c.pos c.size ≠ none) :
    (collideStep b c score despawns).score = score + 1 ∧
    (collideStep b c score despawns).collider.brick = some 0 ∧
    (collideStep b c score despawns).despawns = despawns ++ [c.id] ∧
    ∀ (c2 : ColliderEnt) (h2 : ℤ),
      (collideStep b c2 score despawns).collider.brick = some h2 →
      c2.brick = some h2 ∨ 0 ≤ h2 := by
  obtain ⟨col, hsome⟩ := Option.ne_none_iff_exists'.mp hcol
  refine ⟨?_, ?_, ?_, ?_⟩
  · simp [collideStep, hsome, hb]
  · simp [collideStep, hsome, hb]
  · simp [collideStep, hsome, hb]
  · intro c2 h2 hres
    cases hd : detect b.pos b.size c2.pos c2.size with
    | none => simp [collideStep, hd] at hres; exact Or.inl hres
    | some col2 =>
      cases hb2 : c2.brick with
      | none => simp [collideStep, hd, hb2] at hres
      | some hh =>
        simp [collideStep, hd, hb2] at hres
        exact Or.inr (hres ▸ le_max_right _ _)

/-- C1, witness: a ball overlapping a health-1 brick from the left; the step
scores 1, leaves the brick at health 0 and queues it for despawn. -/
theorem c1_brick_hit_witness :
    (⟨7, ⟨50, 0⟩, ⟨100, 30⟩, some 1⟩ : ColliderEnt).brick = some 1 ∧
    detect (⟨⟨0, 0⟩, ⟨30, 30⟩, ⟨5, 0⟩⟩ : BallEnt).pos ⟨30, 30⟩ ⟨50, 0⟩ ⟨100, 30⟩ ≠ none ∧
    ((collideStep ⟨⟨0, 0⟩, ⟨30, 30⟩, ⟨5, 0⟩⟩ ⟨7, ⟨50, 0⟩, ⟨100, 30⟩, some 1⟩ 3 []).score = 3 + 1 ∧
      (collideStep ⟨⟨0, 0⟩, ⟨30, 30⟩, ⟨5, 0⟩⟩ ⟨7, ⟨50, 0⟩, ⟨100, 30⟩, some 1⟩ 3
        []).collider.brick = some 0 ∧
      (collideStep ⟨⟨0, 0⟩, ⟨30, 30⟩, ⟨5, 0⟩⟩ ⟨7, ⟨50, 0⟩, ⟨100, 30⟩, some 1⟩ 3
        []).despawns = [] ++ [(⟨7, ⟨50, 0⟩, ⟨100, 30⟩, some 1⟩ : ColliderEnt).id] ∧
      ∀ (c2 : ColliderEnt) (h2 : ℤ),
        (collideStep ⟨⟨0, 0⟩, ⟨30, 30⟩, ⟨5, 0⟩⟩ c2 3 []).collider.brick = some h2 →
        c2.brick = some h2 ∨ 0 ≤ h2) := by
  have hL : detect (⟨⟨0, 0⟩, ⟨30, 30⟩, ⟨5, 0⟩⟩ : BallEnt).pos ⟨30, 30⟩ ⟨50, 0⟩ ⟨100, 30⟩
      = some Collision.Left := by
    norm_num [detect, abs_of_nonneg, abs_of_nonpos]
  have hcol : detect (⟨⟨0, 0⟩, ⟨30, 30⟩, ⟨5, 0⟩⟩ : BallEnt).pos ⟨30, 30⟩ ⟨50, 0⟩ ⟨100, 30⟩
      ≠ none := by
    simp [hL]
  exact ⟨rfl, hcol, c1_brick_hit _ _ _ _ rfl hcol⟩

/-- C10: when `detect` reports `Inside` against a brick, no axis reflects (the
velocity is unchanged) yet the score still goes up by 1, the brick's health is
still decremented with a floor of 0, and the brick is still queued for
despawn whenever the decremented health reaches 0 (that is, whenever its
health was ≤ 1). -/
theorem c10_inside_still_scores (b : BallEnt) (c : ColliderEnt) (score : Nat)
    (despawns : List Nat) (h : ℤ)
    (hin : detect b.pos b.size c.pos c.size = some Collision.Inside)
    (hb : c.brick = some h) :
    (collideStep b c score despawns).ball.vel = b.vel ∧
    (collideStep b c score despawns).score = score + 1 ∧
    (collideStep b c score despawns).collider.brick = some (max (h - 1) 0) ∧
    (h ≤ 1 → (collideStep b c score despawns).despawns = despawns ++ [c.id]) := by
  refine ⟨?_, ?_, ?_, ?_⟩
  · simp [collideStep, hin, hb, applyReflect, reflect_x_flag, reflect_y_flag]
  · simp [collideStep, hin, hb]
  · simp [collideStep, hin, hb]
  · intro hle
    have hmax : max (h - 1) 0 ≤ 0 := max_le (by omega) le_rfl
    simp [collideStep, hin, hb, hmax]

/-- C10, witness: a ball dead-center inside an equal-sized health-1 brick;
`detect` says `Inside`, the velocity is untouched, yet the score rises and the
brick is queued for despawn. -/
theorem c10_inside_still_scores_witness :
    detect (⟨⟨0, 0⟩, ⟨30, 30⟩, ⟨5, -5⟩⟩ : BallEnt).pos ⟨30, 30⟩ ⟨0, 0⟩ ⟨30, 30⟩
      = some Collision.Inside ∧
    (⟨2, ⟨0, 0⟩, ⟨30, 30⟩, some 1⟩ : ColliderEnt).brick = some 1 ∧
    ((collideStep ⟨⟨0, 0⟩, ⟨30, 30⟩, ⟨5, -5⟩⟩ ⟨2, ⟨0, 0⟩, ⟨30, 30⟩, some 1⟩ 0 []).ball.vel
        = (⟨⟨0, 0⟩, ⟨30, 30⟩, ⟨5, -5⟩⟩ : BallEnt).vel ∧
      (collideStep ⟨⟨0, 0⟩, ⟨30, 30⟩, ⟨5, -5⟩⟩ ⟨2, ⟨0, 0⟩, ⟨30, 30⟩, some 1⟩ 0 []).score
        = 0 + 1 ∧
      (collideStep ⟨⟨0, 0⟩, ⟨30, 30⟩, ⟨5, -5⟩⟩ ⟨2, ⟨0, 0⟩, ⟨30, 30⟩, some 1⟩ 0
        []).collider.brick = some (max ((1 : ℤ) - 1) 0) ∧
      ((1 : ℤ) ≤ 1 →
        (collideStep ⟨⟨0, 0⟩, ⟨30, 30⟩, ⟨5, -5⟩⟩ ⟨2, ⟨0, 0⟩, ⟨30, 30⟩, some 1⟩ 0
          []).despawns = [] ++ [(⟨2, ⟨0, 0⟩, ⟨30, 30⟩, some 1⟩ : ColliderEnt).id])) := by
  have hin : detect (⟨⟨0, 0⟩, ⟨30, 30⟩, ⟨5, -5⟩⟩ : BallEnt).pos ⟨30, 30⟩ ⟨0, 0⟩ ⟨30, 30⟩
      = some Collision.Inside := by
    norm_num [detect, abs_of_nonneg, abs_of_nonpos]
  exact ⟨hin, rfl, c10_inside_still_scores _ _ _ _ 1 hin rfl⟩

/-- Each component of a reflected velocity is the original component or its
negation. -/
lemma applyReflect_component (col : Collision) (v : Vec2) :
    ((applyReflect col v).x = v.x ∨ (applyReflect col v).x = -v.x) ∧
    ((applyReflect col v).y = v.y ∨ (applyReflect col v).y = -v.y) := by
  unfold applyReflect
  constructor
  · dsimp only
    split <;> simp
  · dsimp only
    split <;> simp

/-- One collision step keeps each velocity component up to sign. -/
lemma collideStep_vel (b : BallEnt) (c : ColliderEnt) (score : Nat) (despawns : List Nat) :
    ((collideStep b c score despawns).ball.vel.x = b.vel.x
      ∨ (collideStep b c score despawns).ball.vel.x = -b.vel.x) ∧
    ((collideStep b c score despawns).ball.vel.y = b.vel.y
      ∨ (collideStep b c score despawns).ball.vel.y = -b.vel.y) := by
  cases hd : detect b.pos b.size c.pos c.size with
  | none => simp [collideStep, hd]
  | some col =>
    cases hb : c.brick with
    | none => simpa [collideStep, hd, hb] using applyReflect_component col b.vel
    | some h => simpa [collideStep, hd, hb] using applyReflect_component col b.vel

/-- Up-to-sign equality is transitive. -/
lemma pm_trans {a b c : ℚ} (h1 : b = a ∨ b = -a) (h2 : c = b ∨ c = -b) :
    c = a ∨ c = -a := by
  rcases h1 with rfl | rfl <;> rcases h2 with rfl | rfl <;> simp

/-- A whole pass of one ball over the collider list keeps each velocity
component up to sign. -/
lemma collideBall_vel (cs : List ColliderEnt) :
    ∀ (b : BallEnt) (score : Nat) (despawns : List Nat),
    ((collideBall b cs score despawns).ball.vel.x = b.vel.x
      ∨ (collideBall b cs score despawns).ball.vel.x = -b.vel.x) ∧
    ((collideBall b cs score despawns).ball.vel.y = b.vel.y
      ∨ (collideBall b cs score despawns).ball.vel.y = -b.vel.y) := by
  induction cs with
  | nil => intro b score despawns; simp [collideBall]
  | cons c cs ih =>
    intro b score despawns
    have h1 := collideStep_vel b c score despawns
    have h2 := ih (collideStep b c score despawns).ball
      (collideStep b c score despawns).score (collideStep b c score despawns).despawns
    simp only [collideBall]
    exact ⟨pm_trans h1.1 h2.1, pm_trans h1.2 h2.2⟩

/-- C9: `check_ball_collisions` preserves every ball's speed — each velocity
component comes out unchanged or negated, so the squared magnitude of each
ball's velocity is exactly what it was before the system ran. -/
theorem c9_speed_preserved (balls : List BallEnt) (cs : List ColliderEnt)
    (score : Nat) (despawns : List Nat) :
    List.Forall₂ (fun b b2 =>
      (b2.vel.x = b.vel.x ∨ b2.vel.x = -b.vel.x) ∧
      (b2.vel.y = b.vel.y ∨ b2.vel.y = -b.vel.y) ∧
      b2.vel.x ^ 2 + b2.vel.y ^ 2 = b.vel.x ^ 2 + b.vel.y ^ 2)
      balls (check_ball_collisions balls cs score despawns).balls := by
  induction balls generalizing cs score despawns with
  | nil => exact List.Forall₂.nil
  | cons b bs ih =>
    have h := collideBall_vel cs b score despawns
    have hsq : (collideBall b cs score despawns).ball.vel.x ^ 2
        + (collideBall b cs score despawns).ball.vel.y ^ 2
        = b.vel.x ^ 2 + b.vel.y ^ 2 := by
      rcases h.1 with h1 | h1 <;> rcases h.2 with h2 | h2 <;> rw [h1, h2] <;> ring
    simp only [check_ball_collisions]
    exact List.Forall₂.cons ⟨h.1, h.2, hsq⟩ (ih _ _ _)

/-- C4, counterexample: in the claimed scenario the ball (center (0,0), size
30) already overlaps the brick (center (50,0), size 100×30) — after one tick
of dt = 1/60 the ball sits at (20/3, 0) and `detect` already returns
`some Left`, refuting the claim that there is no collision yet at that point
(and the ball's right edge never "reaches" the brick's left edge x = 0: it
starts past it). -/
theorem c4_counterexample :
    (apply_velocity (1 / 60) [⟨⟨0, 0⟩, ⟨30, 30⟩, ⟨400, 0⟩⟩]).map
      (fun b => detect b.pos b.size ⟨50, 0⟩ ⟨100, 30⟩)
    = [some Collision.Left] := by
  norm_num [apply_velocity, detect, abs_of_nonneg, abs_of_nonpos]

/-- C4, amended: ball at (0,0) size (30,30) with velocity (400,0), brick at
(50,0) size (100,30) health 1; the two boxes overlap from the start, so the
collision happens on the very first tick: after dt = 1/60 the ball is at
(20/3, 0) ≈ (6.67, 0), `detect` returns `Left`, the x-velocity flips sign to
-400, the score becomes 1 and the brick (health now 0) is queued for
removal. -/
theorem c4_amended :
    apply_velocity (1 / 60) [⟨⟨0, 0⟩, ⟨30, 30⟩, ⟨400, 0⟩⟩]
      = [⟨⟨20 / 3, 0⟩, ⟨30, 30⟩, ⟨400, 0⟩⟩] ∧
    detect ⟨20 / 3, 0⟩ ⟨30, 30⟩ ⟨50, 0⟩ ⟨100, 30⟩ = some Collision.Left ∧
    check_ball_collisions [⟨⟨20 / 3, 0⟩, ⟨30, 30⟩, ⟨400, 0⟩⟩]
        [⟨0, ⟨50, 0⟩, ⟨100, 30⟩, some 1⟩] 0 []
      = ⟨[⟨⟨20 / 3, 0⟩, ⟨30, 30⟩, ⟨-400, 0⟩⟩], [⟨0, ⟨50, 0⟩, ⟨100, 30⟩, some 0⟩], 1, [0]⟩ := by
  refine ⟨?_, ?_, ?_⟩
  · norm_num [apply_velocity]
  · norm_num [detect, abs_of_nonneg, abs_of_nonpos]
  · norm_num [check_ball_collisions, collideBall, collideStep, detect, applyReflect,
      reflect_x_flag, reflect_y_flag, abs_of_nonneg, abs_of_nonpos]

/-- The paddle's clamp interval is non-degenerate. -/
lemma paddle_min_le_max : paddleMinX ≤ paddleMaxX := by
  norm_num [paddleMinX, paddleMaxX, LEFT_WALL, RIGHT_WALL, WALL_THICKNESS, PADDLE_SIZE]

/-- With only the A key held the paddle step moves left by
`PADDLE_SPEED * dt` before clamping. -/
lemma move_paddle_left_eq (dt x : ℚ) :
    move_paddle true false dt x
      = max (min (x - PADDLE_SPEED * dt) paddleMaxX) paddleMinX := by
  simp only [move_paddle, if_true, if_false]
  norm_num
  ring_nf

/-- The paddle step always lands inside the clamp interval, whatever the
input. -/
lemma move_paddle_mem (pA pD : Bool) (dt x : ℚ) :
    paddleMinX ≤ move_paddle pA pD dt x ∧ move_paddle pA pD dt x ≤ paddleMaxX := by
  constructor
  · simp only [move_paddle]
    exact le_max_right _ _
  · simp only [move_paddle]
    exact max_le (min_le_right _ _) paddle_min_le_max

/-- Closed form for holding hard left from an in-range start: after n ticks
the paddle is at the start minus n steps, clamped at the left bound. -/
lemma paddleLeftTicks_closed (dt : ℚ) (hdt : 0 < dt) (n : Nat) :
    ∀ x : ℚ, paddleMinX ≤ x → x ≤ paddleMaxX →
      paddleLeftTicks dt n x = max (x - n * (PADDLE_SPEED * dt)) paddleMinX := by
  induction n with
  | zero =>
    intro x h1 h2
    simp only [paddleLeftTicks, Nat.cast_zero, zero_mul, sub_zero]
    rw [max_eq_left h1]
  | succ n ih =>
    intro x h1 h2
    have hs : 0 < PADDLE_SPEED * dt := by
      have hp : (0 : ℚ) < PADDLE_SPEED := by norm_num [PADDLE_SPEED]
      exact mul_pos hp hdt
    have hmove : move_paddle true false dt x = max (x - PADDLE_SPEED * dt) paddleMinX := by
      rw [move_paddle_left_eq, min_eq_left (by linarith)]
    rw [paddleLeftTicks, hmove,
      ih _ (le_max_right _ _) (max_le (by linarith) paddle_min_le_max)]
    rcases le_total paddleMinX (x - PADDLE_SPEED * dt) with hc | hc
    · rw [max_eq_left hc]
      congr 1
      push_cast
      ring
    · rw [max_eq_right hc]
      have h0 : (0 : ℚ) ≤ (n : ℚ) * (PADDLE_SPEED * dt) := by positivity
      rw [max_eq_right (by linarith), max_eq_right (by push_cast; nlinarith)]

/-- C6: every paddle-controller tick leaves the paddle's x inside
[LEFT_WALL + (WALL_THICKNESS+PADDLE_WIDTH)/2, RIGHT_WALL −
(WALL_THICKNESS+PADDLE_WIDTH)/2] = [−385, 385], for any input; holding
move-left keeps it at or above the left clamp after every tick, and after
enough ticks it sits exactly at the left clamp, never below. -/
theorem c6_paddle_clamp (pA pD : Bool) (dt x : ℚ) (hdt : 0 < dt) :
    (paddleMinX ≤ move_paddle pA pD dt x ∧ move_paddle pA pD dt x ≤ paddleMaxX) ∧
    paddleMinX = -385 ∧ paddleMaxX = 385 ∧
    (∀ n : Nat, 1 ≤ n → paddleMinX ≤ paddleLeftTicks dt n x) ∧
    ∃ N : Nat, ∀ n : Nat, N ≤ n → paddleLeftTicks dt n x = paddleMinX := by
  have hs : 0 < PADDLE_SPEED * dt := by
    have hp : (0 : ℚ) < PADDLE_SPEED := by norm_num [PADDLE_SPEED]
    exact mul_pos hp hdt
  have key : ∀ (m : Nat) (y : ℚ), paddleLeftTicks dt (m + 1) y
      = max (move_paddle true false dt y - m * (PADDLE_SPEED * dt)) paddleMinX := by
    intro m y
    rw [paddleLeftTicks]
    exact paddleLeftTicks_closed dt hdt m _ (move_paddle_mem true false dt y).1
      (move_paddle_mem true false dt y).2
  refine ⟨move_paddle_mem pA pD dt x,
    by norm_num [paddleMinX, LEFT_WALL, WALL_THICKNESS, PADDLE_SIZE],
    by norm_num [paddleMaxX, RIGHT_WALL, WALL_THICKNESS, PADDLE_SIZE], ?_, ?_⟩
  · intro n hn
    obtain ⟨m, rfl⟩ : ∃ m, n = m + 1 := ⟨n - 1, by omega⟩
    rw [key]
    exact le_max_right _ _
  · refine ⟨Nat.ceil ((paddleMaxX - paddleMinX) / (PADDLE_SPEED * dt)) + 1, ?_⟩
    intro n hn
    obtain ⟨m, rfl⟩ : ∃ m, n = m + 1 := ⟨n - 1, by omega⟩
    rw [key]
    have hm : Nat.ceil ((paddleMaxX - paddleMinX) / (PADDLE_SPEED * dt)) ≤ m := by omega
    have hdiv : (paddleMaxX - paddleMinX) / (PADDLE_SPEED * dt) ≤ (m : ℚ) :=
      Nat.ceil_le.mp hm
    have hle : paddleMaxX - paddleMinX ≤ (m : ℚ) * (PADDLE_SPEED * dt) :=
      (div_le_iff₀ hs).mp hdiv
    have hy := (move_paddle_mem true false dt x).2
    exact max_eq_right (by linarith)

/-- C6, witness: at the fixed tick dt = 1/60 from the paddle's start x = 0,
the clamp bounds hold and hard-left driving reaches and holds the left
clamp. -/
theorem c6_paddle_clamp_witness :
    (0 : ℚ) < 1 / 60 ∧
    ((paddleMinX ≤ move_paddle true false (1 / 60) 0
        ∧ move_paddle true false (1 / 60) 0 ≤ paddleMaxX) ∧
      paddleMinX = -385 ∧ paddleMaxX = 385 ∧
      (∀ n : Nat, 1 ≤ n → paddleMinX ≤ paddleLeftTicks (1 / 60) n 0) ∧
      ∃ N : Nat, ∀ n : Nat, N ≤ n → paddleLeftTicks (1 / 60) n 0 = paddleMinX) :=
  ⟨by norm_num, c6_paddle_clamp true false (1 / 60) 0 (by norm_num)⟩

end Breakout
